import Mathlib

/-!
Shallow embedding of the e-commerce HTTP API implemented in `src/server.js`.

The server keeps three process-wide in-memory tables (`users`, `products`,
`orders`) and mutates them from a set of Express route handlers.  Each handler
is translated here as a pure function from a `Store` (the three tables) and the
request data to a new `Store` together with the JSON response rendered as a
`Resp` (HTTP status, the `success` flag and the `message` field) and, where a
claim needs it, the response payload.

Modelling decisions, all driven by the JavaScript source:
  * numbers that the code treats as integers (ids, quantities, stock) are `Int`
    (stock is subtracted without a floor check, so it must be signed);
  * prices and totals are exact rationals `ℚ`; `toFixed(2)` is modelled by
    rounding half-up at two decimals (`round2` / `ratToFixed2`), which is the
    tie rule of `Number.prototype.toFixed` on exact decimal inputs;
  * a missing JSON body field and the other falsy values collapse to the value
    the check in the code cannot distinguish them from: for strings the check
    `!s` holds exactly for the empty string, for numeric fields the body value
    is an `Option Int` and `!n` holds for `none` and for `some 0`;
  * password hashing (`bcrypt`) is an external library; the handlers are
    parameterised by an abstract `hash : String → String`, and
    `bcrypt.compare p h` is `hash p == h`;
  * `createdAt` timestamps (wall-clock `new Date()`) and the signed JWT token
    string are not modelled: no claim mentions them;
  * the cart handlers look the authenticated user up with `users.find(...)`
    and would throw on a missing user (Express then answers 500 without any
    table having been touched); that unreachable branch is modelled as a
    500 response with the store unchanged.
-/

namespace ECommerce

/-- A line of a shopping cart: product id plus a snapshot of the product name
and price taken at add-to-cart time, and the requested quantity. -/
structure CartItem where
  productId : Int
  name : String
  price : ℚ
  quantity : Int
deriving DecidableEq

/-- A registered user; `password` stores the (abstract) password hash. -/
structure User where
  id : Int
  username : String
  email : String
  password : String
  cart : List CartItem
deriving DecidableEq

/-- A catalog product. -/
structure Product where
  id : Int
  name : String
  category : String
  description : String
  price : ℚ
  stock : Int
deriving DecidableEq

/-- An order created at checkout. -/
structure Order where
  id : Int
  userId : Int
  username : String
  items : List CartItem
  total : ℚ
  status : String
deriving DecidableEq

/-- The three in-memory tables of the server. -/
structure Store where
  users : List User
  products : List Product
  orders : List Order
deriving DecidableEq

/-- The observable part of a JSON response: HTTP status code, the `success`
flag and the `message` field (empty when the code sends no message). -/
structure Resp where
  status : Nat
  success : Bool
  message : String
deriving DecidableEq

/-- Replace the first element satisfying `p` by its image under `f`; the JS
pattern `const x = arr.find(pred); mutate x` updates exactly that element. -/
def updateFirst (p : α → Bool) (f : α → α) : List α → List α
  | [] => []
  | x :: xs => if p x then f x :: xs else x :: updateFirst p f xs

/-- The cart total as the code computes it:
`cart.reduce((sum, item) => sum + item.price * item.quantity, 0)`. -/
def cartSum (items : List CartItem) : ℚ :=
  items.foldl (fun s it => s + it.price * (it.quantity : ℚ)) 0

/-- Rounding to the nearest integer with ties going up, written so that the
kernel can evaluate it on concrete rationals; `roundQ_eq_round` below proves
it equal to Mathlib round. -/
def roundQ (q : ℚ) : ℤ := (2 * q.num + (q.den : ℤ)) / (2 * (q.den : ℤ))

/-- Rounding at two decimals, the numeric value of `x.toFixed(2)`
(ties go up, as in `toFixed` on exact decimal inputs). -/
def round2 (q : ℚ) : ℚ := ((roundQ (q * 100) : ℤ) : ℚ) / 100

/-- The string `x.toFixed(2)`: sign, integer part, dot, two decimal digits. -/
def ratToFixed2 (q : ℚ) : String :=
  let c : Int := roundQ (q * 100)
  let a : Nat := c.natAbs
  (if c < 0 then "-" else "") ++ toString (a / 100) ++ "." ++
    (if a % 100 < 10 then "0" else "") ++ toString (a % 100)

/-- Look up the authenticated user: `users.find(u => u.id === req.user.id)`. -/
def findUser (st : Store) (uid : Int) : Option User :=
  st.users.find? (fun u => u.id == uid)

/-- Product lookup by id: `products.find(p => p.id === productId)`. -/
def findProduct (ps : List Product) (pid : Int) : Option Product :=
  ps.find? (fun p => p.id == pid)

/-- Replace the cart of a user, all other fields untouched. -/
def setCart (u : User) (c : List CartItem) : User :=
  ⟨u.id, u.username, u.email, u.password, c⟩

/-- Apply `f` to the cart of the (first) user with id `uid`, as the JS
`const user = users.find(...); user.cart = ...` mutation does. -/
def updUserCart (st : Store) (uid : Int) (f : List CartItem → List CartItem) :
    Store :=
  ⟨updateFirst (fun u => u.id == uid) (fun u => setCart u (f u.cart)) st.users,
   st.products, st.orders⟩

/-- POST /api/auth/register. -/
def register (hash : String → String) (st : Store)
    (username email password : String) : Store × Resp :=
  if username = "" ∨ email = "" ∨ password = "" then
    (st, ⟨400, false, "Please provide username, email, and password"⟩)
  else if (st.users.find? (fun u => u.email == email)).isSome then
    (st, ⟨400, false, "Email already registered"⟩)
  else
    (⟨st.users ++ [⟨(st.users.length : Int) + 1, username, email,
        hash password, []⟩], st.products, st.orders⟩,
     ⟨201, true, "Registration successful! You can now login"⟩)

/-- POST /api/auth/login (the issued token is not modelled). -/
def login (hash : String → String) (st : Store) (email password : String) :
    Store × Resp :=
  if email = "" ∨ password = "" then
    (st, ⟨400, false, "Please provide email and password"⟩)
  else
    match st.users.find? (fun u => u.email == email) with
    | none => (st, ⟨400, false, "Invalid email or password"⟩)
    | some u =>
      if hash password == u.password then
        (st, ⟨200, true, "Login successful!"⟩)
      else
        (st, ⟨400, false, "Invalid email or password"⟩)

/-- The payload of GET /api/cart: `itemCount`, `total` (2-decimal string)
and `items`. -/
structure CartView where
  itemCount : Nat
  total : String
  items : List CartItem
deriving DecidableEq

/-- GET /api/cart. -/
def getCart (st : Store) (uid : Int) : Resp × Option CartView :=
  match findUser st uid with
  | none => (⟨500, false, "Server error"⟩, none)
  | some u =>
    (⟨200, true, ""⟩, some ⟨u.cart.length, ratToFixed2 (cartSum u.cart), u.cart⟩)

/-- JS falsiness of a numeric body field: absent, or present and zero. -/
def isFalsyNum : Option Int → Bool
  | none => true
  | some v => v == 0

/-- The cart mutation of POST /api/cart: merge into the existing line for the
product (`existingItem.quantity += quantity`) or push a new snapshot line. -/
def addLine (c : List CartItem) (prod : Product) (pid q : Int) :
    List CartItem :=
  if c.any (fun it => it.productId == pid) then
    updateFirst (fun it => it.productId == pid)
      (fun it => ⟨it.productId, it.name, it.price, it.quantity + q⟩) c
  else
    c ++ [⟨pid, prod.name, prod.price, q⟩]

/-- POST /api/cart. -/
def addToCart (st : Store) (uid : Int) (productId quantity : Option Int) :
    Store × Resp :=
  if isFalsyNum productId || isFalsyNum quantity then
    (st, ⟨400, false, "Please provide productId and quantity"⟩)
  else
    match findUser st uid with
    | none => (st, ⟨500, false, "Server error"⟩)
    | some _ =>
      match findProduct st.products (productId.getD 0) with
      | none => (st, ⟨404, false, "Product not found"⟩)
      | some prod =>
        if prod.stock < quantity.getD 0 then
          (st, ⟨400, false,
            "Only " ++ toString prod.stock ++ " items in stock"⟩)
        else
          (updUserCart st uid
             (fun c => addLine c prod (productId.getD 0) (quantity.getD 0)),
           ⟨200, true, prod.name ++ " added to cart"⟩)

/-- PUT /api/cart/:productId. -/
def updateCartItem (st : Store) (uid productId quantity : Int) :
    Store × Resp :=
  match findUser st uid with
  | none => (st, ⟨500, false, "Server error"⟩)
  | some u =>
    if u.cart.any (fun it => it.productId == productId) then
      if quantity = 0 then
        (updUserCart st uid
           (fun c => c.filter (fun it => !(it.productId == productId))),
         ⟨200, true, "Item removed from cart"⟩)
      else
        (updUserCart st uid
           (fun c => updateFirst (fun it => it.productId == productId)
             (fun it => ⟨it.productId, it.name, it.price, quantity⟩) c),
         ⟨200, true, "Cart updated"⟩)
    else
      (st, ⟨404, false, "Item not in cart"⟩)

/-- DELETE /api/cart/:productId. -/
def removeCartItem (st : Store) (uid productId : Int) : Store × Resp :=
  match findUser st uid with
  | none => (st, ⟨500, false, "Server error"⟩)
  | some u =>
    if u.cart.any (fun it => it.productId == productId) then
      (updUserCart st uid
         (fun c => c.filter (fun it => !(it.productId == productId))),
       ⟨200, true, "Item removed from cart"⟩)
    else
      (st, ⟨404, false, "Item not in cart"⟩)

/-- DELETE /api/cart. -/
def clearCart (st : Store) (uid : Int) : Store × Resp :=
  match findUser st uid with
  | none => (st, ⟨500, false, "Server error"⟩)
  | some _ => (updUserCart st uid (fun _ => []), ⟨200, true, "Cart cleared"⟩)

/-- The stock update loop of POST /api/orders: for each cart line, find the
product and subtract the line quantity (silently skipping unknown ids). -/
def decStockAll (ps : List Product) (cart : List CartItem) : List Product :=
  cart.foldl
    (fun acc it =>
      updateFirst (fun p => p.id == it.productId)
        (fun p => ⟨p.id, p.name, p.category, p.description, p.price,
          p.stock - it.quantity⟩) acc)
    ps

/-- POST /api/orders (checkout). -/
def createOrder (st : Store) (uid : Int) : Store × Resp × Option Order :=
  match findUser st uid with
  | none => (st, ⟨500, false, "Server error"⟩, none)
  | some u =>
    if u.cart.isEmpty then
      (st, ⟨400, false, "Your cart is empty"⟩, none)
    else
      let newOrder : Order :=
        ⟨(st.orders.length : Int) + 1, u.id, u.username, u.cart,
         round2 (cartSum u.cart), "pending"⟩
      (⟨updateFirst (fun w => w.id == uid) (fun w => setCart w []) st.users,
        decStockAll st.products u.cart,
        st.orders ++ [newOrder]⟩,
       ⟨201, true, "Order placed successfully! 🎉"⟩, some newOrder)

/-- GET /api/orders: the orders of the authenticated user. -/
def listOrders (st : Store) (uid : Int) : Resp × List Order :=
  (⟨200, true, ""⟩, st.orders.filter (fun o => o.userId == uid))

/-- GET /api/orders/:id. -/
def getOrder (st : Store) (uid oid : Int) : Resp × Option Order :=
  match st.orders.find? (fun o => o.id == oid && o.userId == uid) with
  | none => (⟨404, false, "Order not found"⟩, none)
  | some o => (⟨200, true, ""⟩, some o)

/-- GET /api/products. -/
def listProducts (st : Store) : Resp × List Product :=
  (⟨200, true, ""⟩, st.products)

/-- GET /api/products/:id. -/
def getProduct (st : Store) (pid : Int) : Resp × Option Product :=
  match findProduct st.products pid with
  | none => (⟨404, false, "Product not found"⟩, none)
  | some p => (⟨200, true, ""⟩, some p)

/-- Boolean prefix test on character lists. -/
def isPrefixB : List Char → List Char → Bool
  | [], _ => true
  | _ :: _, [] => false
  | a :: as, b :: bs => a == b && isPrefixB as bs

/-- Boolean substring test on character lists (JS `String.includes`). -/
def isInfixB (needle : List Char) : List Char → Bool
  | [] => isPrefixB needle []
  | b :: bs => isPrefixB needle (b :: bs) || isInfixB needle bs

/-- GET /api/products/search/:query: case-insensitive substring match on
name, category and description. -/
def searchProducts (st : Store) (query : String) : Resp × List Product :=
  let ql := query.toLower
  (⟨200, true, ""⟩,
   st.products.filter (fun p =>
     isInfixB ql.data p.name.toLower.data ||
     isInfixB ql.data p.category.toLower.data ||
     isInfixB ql.data p.description.toLower.data))

/-- One request to the API (the authenticated endpoints carry the user id the
verified token decodes to). -/
inductive Op where
  | register (username email password : String)
  | login (email password : String)
  | listProducts
  | getProduct (pid : Int)
  | searchProducts (query : String)
  | getCart (uid : Int)
  | addToCart (uid : Int) (productId quantity : Option Int)
  | updateCartItem (uid productId quantity : Int)
  | removeCartItem (uid productId : Int)
  | clearCart (uid : Int)
  | createOrder (uid : Int)
  | listOrders (uid : Int)
  | getOrder (uid oid : Int)
deriving DecidableEq

/-- Dispatch one request against the store: the new store and the response. -/
def step (hash : String → String) (st : Store) : Op → Store × Resp
  | .register u e p => register hash st u e p
  | .login e p => login hash st e p
  | .listProducts => (st, (listProducts st).1)
  | .getProduct pid => (st, (getProduct st pid).1)
  | .searchProducts q => (st, (searchProducts st q).1)
  | .getCart uid => (st, (getCart st uid).1)
  | .addToCart uid p q => addToCart st uid p q
  | .updateCartItem uid p q => updateCartItem st uid p q
  | .removeCartItem uid p => removeCartItem st uid p
  | .clearCart uid => clearCart st uid
  | .createOrder uid => ((createOrder st uid).1, (createOrder st uid).2.1)
  | .listOrders uid => (st, (listOrders st uid).1)
  | .getOrder uid oid => (st, (getOrder st uid oid).1)

/-- Run a sequence of requests, keeping only the final store. -/
def runOps (hash : String → String) (st : Store) (ops : List Op) : Store :=
  ops.foldl (fun s op => (step hash s op).1) st

/-- The authenticated user of a cart endpoint request (`none` for the other
endpoints). -/
def cartOpUid : Op → Option Int
  | .getCart uid => some uid
  | .addToCart uid _ _ => some uid
  | .updateCartItem uid _ _ => some uid
  | .removeCartItem uid _ => some uid
  | .clearCart uid => some uid
  | _ => none

/-- The quantity of product `pid` ordered by a cart: the sum of the
quantities of the cart lines for that product. -/
def qtyIn (cart : List CartItem) (pid : Int) : Int :=
  ((cart.filter (fun it => it.productId == pid)).map CartItem.quantity).sum

/-- Subtract `q` from the stock of a product. -/
def subStock (p : Product) (q : Int) : Product :=
  ⟨p.id, p.name, p.category, p.description, p.price, p.stock - q⟩

/-- Email uniqueness of the users table. -/
def emailsNodup (st : Store) : Prop :=
  (st.users.map User.email).Nodup

/-! ### Concrete fixtures used by witnesses -/

/-- A concrete stand-in for the abstract bcrypt hash. -/
def hashEx : String → String := fun s => "h" ++ s

/-- A sample product with stock 5. -/
def prodEx : Product := ⟨1, "Laptop", "tech", "fast machine", 999, 5⟩

/-- A second sample product. -/
def prodEx2 : Product := ⟨2, "Mouse", "tech", "clicky", 25, 10⟩

/-- A sample user with an empty cart. -/
def userEx : User := ⟨1, "al", "a@x.com", "hpw123456", []⟩

/-- A second sample user whose cart holds two laptops. -/
def userEx2 : User := ⟨2, "bo", "b@x.com", "hsecret", [⟨1, "Laptop", 999, 2⟩]⟩

/-- A sample store with two users, two products and no orders. -/
def stEx : Store := ⟨[userEx, userEx2], [prodEx, prodEx2], []⟩

/-- A sample order owned by user 2. -/
def ordEx : Order := ⟨1, 2, "bo", [⟨1, "Laptop", 999, 2⟩], 1998, "pending"⟩

/-- The sample store extended with one order owned by user 2. -/
def stExO : Store := ⟨[userEx, userEx2], [prodEx, prodEx2], [ordEx]⟩

/-! ### Helper lemmas -/

theorem roundQ_eq_round (q : ℚ) : roundQ q = round q := by
  rw [round_eq]
  have hd : ((q.den : ℚ)) ≠ 0 := Nat.cast_ne_zero.mpr q.den_pos.ne'
  have hd2 : ((2 * q.den : ℕ) : ℚ) ≠ 0 := by
    push_cast
    positivity
  have hq : q + 1/2 =
      ((2 * q.num + (q.den : ℤ) : ℤ) : ℚ) / ((2 * q.den : ℕ) : ℚ) := by
    conv_lhs => rw [← Rat.num_div_den q]
    push_cast
    field_simp
    ring
  rw [hq, Rat.floor_intCast_div_natCast, roundQ]
  congr 1

theorem round2_eq_round (q : ℚ) : round2 q = ((round (q * 100) : ℤ) : ℚ) / 100 := by
  rw [round2, roundQ_eq_round]

theorem updateFirst_map (p : α → Bool) (f : α → α) (g : α → β)
    (hf : ∀ x, g (f x) = g x) :
    ∀ l : List α, (updateFirst p f l).map g = l.map g := by
  intro l
  induction l with
  | nil => rfl
  | cons x xs ih =>
    by_cases hx : p x = true
    · simp [updateFirst, hx, hf]
    · simp [updateFirst, hx, ih]

theorem updateFirst_congr (p : α → Bool) (f f' : α → α)
    (hf : ∀ x, f x = f' x) :
    ∀ l : List α, updateFirst p f l = updateFirst p f' l := by
  intro l
  induction l with
  | nil => rfl
  | cons x xs ih =>
    by_cases hx : p x = true
    · simp [updateFirst, hx, hf]
    · simp [updateFirst, hx, ih]

theorem updateFirst_id (p : α → Bool) (f : α → α) (hf : ∀ x, f x = x) :
    ∀ l : List α, updateFirst p f l = l := by
  intro l
  induction l with
  | nil => rfl
  | cons x xs ih =>
    by_cases hx : p x = true
    · simp [updateFirst, hx, hf]
    · simp [updateFirst, hx, ih]

theorem find?_updateFirst (p : α → Bool) (f : α → α) (l : List α) (a : α)
    (h : l.find? p = some a) (hfa : p (f a) = true) :
    (updateFirst p f l).find? p = some (f a) := by
  induction l with
  | nil => simp at h
  | cons x xs ih =>
    by_cases hx : p x = true
    · rw [List.find?_cons_of_pos _ hx] at h
      cases h
      simp [updateFirst, hx, List.find?_cons_of_pos _ hfa]
    · rw [List.find?_cons_of_neg _ hx] at h
      simp [updateFirst, hx, List.find?_cons_of_neg _ hx, ih h]

theorem setCart_id (u : User) : setCart u u.cart = u := by
  cases u
  rfl

theorem setCart_email (u : User) (c : List CartItem) :
    (setCart u c).email = u.email := rfl

theorem setCart_id_field (u : User) (c : List CartItem) :
    (setCart u c).id = u.id := rfl

theorem updUserCart_emails (st : Store) (uid : Int)
    (f : List CartItem → List CartItem) :
    (updUserCart st uid f).users.map User.email = st.users.map User.email := by
  simp only [updUserCart]
  exact updateFirst_map (fun u => u.id == uid) (fun u => setCart u (f u.cart))
    User.email (fun u => setCart_email u (f u.cart)) st.users

theorem foldl_add_q (g : α → ℚ) :
    ∀ (l : List α) (a : ℚ), l.foldl (fun s x => s + g x) a = a + (l.map g).sum := by
  intro l
  induction l with
  | nil => intro a; simp
  | cons x xs ih =>
    intro a
    simp only [List.foldl_cons, List.map_cons, List.sum_cons, ih]
    ring

theorem cartSum_eq_sum (items : List CartItem) :
    cartSum items = (items.map (fun it => it.price * (it.quantity : ℚ))).sum := by
  simpa using foldl_add_q (fun it : CartItem => it.price * (it.quantity : ℚ)) items 0

theorem subStock_zero (p : Product) : subStock p 0 = p := by
  cases p
  simp [subStock]

theorem subStock_subStock (p : Product) (a b : Int) :
    subStock (subStock p a) b = subStock p (a + b) := by
  cases p
  simp [subStock]
  ring

theorem qtyIn_nil (pid : Int) : qtyIn [] pid = 0 := rfl

theorem qtyIn_cons (it : CartItem) (cart : List CartItem) (pid : Int) :
    qtyIn (it :: cart) pid =
      (if it.productId = pid then it.quantity else 0) + qtyIn cart pid := by
  by_cases h : it.productId = pid
  · simp [qtyIn, List.filter_cons, h]
  · simp [qtyIn, List.filter_cons, h]

theorem decStockAll_nil (ps : List Product) : decStockAll ps [] = ps := rfl

theorem decStockAll_cons (ps : List Product) (it : CartItem)
    (cart : List CartItem) :
    decStockAll ps (it :: cart) =
      decStockAll
        (updateFirst (fun p => p.id == it.productId)
          (fun p => subStock p it.quantity) ps) cart := rfl

theorem updateFirst_subStock_ids (pid q : Int) (ps : List Product) :
    (updateFirst (fun p => p.id == pid) (fun p => subStock p q) ps).map
        Product.id = ps.map Product.id :=
  updateFirst_map (fun p => p.id == pid) (fun p => subStock p q) Product.id
    (fun _ => rfl) ps

theorem updateFirst_subStock_map (pid q : Int) (g : Int → Int) :
    ∀ ps : List Product, (ps.map Product.id).Nodup →
      (updateFirst (fun p => p.id == pid) (fun p => subStock p q) ps).map
          (fun p => subStock p (g p.id)) =
        ps.map (fun p => subStock p (g p.id + if p.id = pid then q else 0)) := by
  intro ps
  induction ps with
  | nil => intro _; rfl
  | cons p rest ih =>
    intro hnd
    rw [List.map_cons, List.nodup_cons] at hnd
    by_cases hp : p.id = pid
    · have hb : (p.id == pid) = true := by simp [hp]
      simp only [updateFirst, hb, if_true, List.map_cons]
      have hhead : subStock (subStock p q) (g (subStock p q).id) =
          subStock p (g p.id + if p.id = pid then q else 0) := by
        rw [show (subStock p q).id = p.id from rfl, subStock_subStock,
          if_pos hp, add_comm]
      rw [hhead]
      congr 1
      apply List.map_congr_left
      intro x hx
      have hxid : x.id ≠ pid := by
        intro hxe
        have hm : x.id ∈ rest.map Product.id := List.mem_map_of_mem Product.id hx
        rw [hxe, ← hp] at hm
        exact hnd.1 hm
      simp [hxid]
    · have hb : (p.id == pid) = false := by simp [hp]
      simp only [updateFirst, hb, Bool.false_eq_true, if_false, List.map_cons,
        ih hnd.2]
      simp [hp]

theorem decStockAll_eq_map (cart : List CartItem) :
    ∀ ps : List Product, (ps.map Product.id).Nodup →
      decStockAll ps cart = ps.map (fun p => subStock p (qtyIn cart p.id)) := by
  induction cart with
  | nil =>
    intro ps _
    rw [decStockAll_nil]
    have h1 : ∀ p ∈ ps, p = subStock p (qtyIn [] p.id) := by
      intro p _
      rw [qtyIn_nil, subStock_zero]
    calc ps = ps.map id := (List.map_id ps).symm
    _ = ps.map (fun p => subStock p (qtyIn [] p.id)) := List.map_congr_left h1
  | cons it rest ih =>
    intro ps hnd
    rw [decStockAll_cons]
    have hnd2 : ((updateFirst (fun p => p.id == it.productId)
        (fun p => subStock p it.quantity) ps).map Product.id).Nodup := by
      rw [updateFirst_subStock_ids]
      exact hnd
    rw [ih _ hnd2,
      updateFirst_subStock_map it.productId it.quantity (fun i => qtyIn rest i)
        ps hnd]
    apply List.map_congr_left
    intro p _
    rw [qtyIn_cons]
    by_cases h : p.id = it.productId
    · simp [h, add_comm]
    · have h' : ¬ it.productId = p.id := fun he => h he.symm
      simp [h, h']

theorem updUserCart_products (st : Store) (uid : Int)
    (f : List CartItem → List CartItem) :
    (updUserCart st uid f).products = st.products := rfl

theorem updUserCart_orders (st : Store) (uid : Int)
    (f : List CartItem → List CartItem) :
    (updUserCart st uid f).orders = st.orders := rfl

theorem users_updateFirst_id (uid : Int) (l : List User) :
    updateFirst (fun u => u.id == uid) (fun u => setCart u u.cart) l = l :=
  updateFirst_id _ _ (fun u => setCart_id u) l

theorem updUserCart_users_shape (st : Store) (uid : Int)
    (f : List CartItem → List CartItem) :
    ∃ g : List CartItem → List CartItem,
      (updUserCart st uid f).users =
        updateFirst (fun u => u.id == uid) (fun u => setCart u (g u.cart))
          st.users :=
  ⟨f, rfl⟩

theorem login_fst (hash : String → String) (st : Store) (email password : String) :
    (login hash st email password).1 = st := by
  unfold login
  repeat' split
  all_goals rfl

theorem step_atomic (hash : String → String) (st : Store) (op : Op) :
    (step hash st op).2.success = true ∨ (step hash st op).1 = st := by
  cases op with
  | createOrder uid =>
    simp only [step, createOrder]
    cases h : findUser st uid with
    | none => simp
    | some u =>
      by_cases hc : u.cart = []
      · simp [hc]
      · simp [hc]
  | _ =>
    simp only [step, register, login, getCart, addToCart, updateCartItem,
      removeCartItem, clearCart, listOrders, getOrder,
      listProducts, getProduct, searchProducts] <;>
    (repeat' split) <;> simp

theorem step_orders_append (hash : String → String) (st : Store) (op : Op) :
    ∃ tail, (step hash st op).1.orders = st.orders ++ tail := by
  cases op with
  | createOrder uid =>
    simp only [step, createOrder]
    cases h : findUser st uid with
    | none => exact ⟨[], by simp⟩
    | some u =>
      by_cases hc : u.cart = []
      · exact ⟨[], by simp [hc]⟩
      · exact ⟨[⟨(st.orders.length : Int) + 1, u.id, u.username, u.cart,
          round2 (cartSum u.cart), "pending"⟩], by simp [hc]⟩
  | _ =>
    simp only [step, register, login, getCart, addToCart, updateCartItem,
      removeCartItem, clearCart, listOrders, getOrder,
      listProducts, getProduct, searchProducts] <;>
    (repeat' split) <;>
    first
      | exact ⟨[], by simp [updUserCart]⟩
      | exact ⟨_, rfl⟩

theorem runOps_orders_append (hash : String → String) (ops : List Op) :
    ∀ st : Store, ∃ tail, (runOps hash st ops).orders = st.orders ++ tail := by
  induction ops with
  | nil => intro st; exact ⟨[], by simp [runOps]⟩
  | cons op ops ih =>
    intro st
    obtain ⟨t1, h1⟩ := step_orders_append hash st op
    obtain ⟨t2, h2⟩ := ih (step hash st op).1
    exact ⟨t1 ++ t2, by
      simp only [runOps, List.foldl_cons] at *
      rw [h2, h1, List.append_assoc]⟩

theorem register_emails (hash : String → String) (st : Store)
    (u e p : String) :
    emailsNodup st → emailsNodup (register hash st u e p).1 := by
  intro h
  unfold register
  split_ifs with h1 h2
  · exact h
  · exact h
  · unfold emailsNodup at *
    simp only [List.map_append, List.map_cons, List.map_nil]
    rw [List.nodup_append]
    refine ⟨h, List.nodup_singleton _, ?_⟩
    intro a ha hb
    have hae : a = e := by simpa using hb
    subst hae
    rw [Option.not_isSome_iff_eq_none, List.find?_eq_none] at h2
    obtain ⟨w, hw, hwe⟩ := List.mem_map.mp ha
    exact h2 w hw (by simp [hwe])

theorem createOrder_emails (st : Store) (uid : Int) :
    (createOrder st uid).1.users.map User.email = st.users.map User.email := by
  unfold createOrder
  repeat' split
  · rfl
  · rfl
  · exact updateFirst_map (fun w => w.id == uid) (fun w => setCart w [])
      User.email (fun w => setCart_email w []) st.users

theorem addToCart_emails (st : Store) (uid : Int)
    (productId quantity : Option Int) :
    (addToCart st uid productId quantity).1.users.map User.email =
      st.users.map User.email := by
  unfold addToCart
  repeat' split
  all_goals first | rfl | exact updUserCart_emails st uid _

theorem updateCartItem_emails (st : Store) (uid productId quantity : Int) :
    (updateCartItem st uid productId quantity).1.users.map User.email =
      st.users.map User.email := by
  unfold updateCartItem
  repeat' split
  all_goals first | rfl | exact updUserCart_emails st uid _

theorem removeCartItem_emails (st : Store) (uid productId : Int) :
    (removeCartItem st uid productId).1.users.map User.email =
      st.users.map User.email := by
  unfold removeCartItem
  repeat' split
  all_goals first | rfl | exact updUserCart_emails st uid _

theorem clearCart_emails (st : Store) (uid : Int) :
    (clearCart st uid).1.users.map User.email = st.users.map User.email := by
  unfold clearCart
  repeat' split
  all_goals first | rfl | exact updUserCart_emails st uid _

theorem step_emailsNodup (hash : String → String) (st : Store) (op : Op) :
    emailsNodup st → emailsNodup (step hash st op).1 := by
  intro h
  cases op with
  | register u e p => exact register_emails hash st u e p h
  | login e p => unfold step; rw [login_fst]; exact h
  | addToCart uid pid q =>
    unfold step emailsNodup at *
    rw [addToCart_emails]
    exact h
  | updateCartItem uid pid q =>
    unfold step emailsNodup at *
    rw [updateCartItem_emails]
    exact h
  | removeCartItem uid pid =>
    unfold step emailsNodup at *
    rw [removeCartItem_emails]
    exact h
  | clearCart uid =>
    unfold step emailsNodup at *
    rw [clearCart_emails]
    exact h
  | createOrder uid =>
    unfold step emailsNodup at *
    rw [createOrder_emails]
    exact h
  | _ => exact h

theorem runOps_emailsNodup (hash : String → String) (ops : List Op) :
    ∀ st : Store, emailsNodup st → emailsNodup (runOps hash st ops) := by
  induction ops with
  | nil => intro st h; exact h
  | cons op ops ih =>
    intro st h
    simp only [runOps, List.foldl_cons]
    exact ih _ (step_emailsNodup hash st op h)

/-! ### Claim theorems -/

/-- C5: for every login attempt with an email absent from the users table and
every login attempt with a registered email but a non-matching password, the
two error responses are identical: status 400 with message
"Invalid email or password", and neither changes the store. -/
theorem C5_login_error_indistinguishable (hash : String → String) (st : Store)
    (e1 p1 e2 p2 : String) (u : User)
    (he1 : e1 ≠ "") (hp1 : p1 ≠ "") (he2 : e2 ≠ "") (hp2 : p2 ≠ "")
    (hu1 : st.users.find? (fun w => w.email == e1) = none)
    (hu2 : st.users.find? (fun w => w.email == e2) = some u)
    (hpw : (hash p2 == u.password) = false) :
    login hash st e1 p1 = login hash st e2 p2 ∧
    login hash st e1 p1 = (st, ⟨400, false, "Invalid email or password"⟩) := by
  have h1 : ¬(e1 = "" ∨ p1 = "") := by
    intro hc
    rcases hc with hc | hc
    · exact he1 hc
    · exact hp1 hc
  have h2 : ¬(e2 = "" ∨ p2 = "") := by
    intro hc
    rcases hc with hc | hc
    · exact he2 hc
    · exact hp2 hc
  have hA : login hash st e1 p1 = (st, ⟨400, false, "Invalid email or password"⟩) := by
    unfold login
    rw [if_neg h1, hu1]
  have hB : login hash st e2 p2 = (st, ⟨400, false, "Invalid email or password"⟩) := by
    unfold login
    rw [if_neg h2, hu2]
    simp [hpw]
  exact ⟨hA.trans hB.symm, hA⟩

/-- C5 witness: in the sample store, logging in with the unknown email
"z@x.com" and logging in as "a@x.com" with a wrong password produce the same
400 "Invalid email or password" response. -/
theorem C5_login_error_indistinguishable_witness :
    login hashEx stEx "z@x.com" "pw" = login hashEx stEx "a@x.com" "nope" ∧
    login hashEx stEx "z@x.com" "pw" =
      (stEx, ⟨400, false, "Invalid email or password"⟩) :=
  C5_login_error_indistinguishable hashEx stEx "z@x.com" "pw" "a@x.com" "nope"
    userEx (by decide) (by decide) (by decide) (by decide) (by decide)
    (by decide) (by decide)

/-- C6: listOrders returns exactly the orders whose userId is the requesting
user, and getOrder answers 404 whenever no order has both the requested id
and the requesting user as owner (absent id or foreign order). -/
theorem C6_order_ownership (st : Store) (uid oid : Int) :
    (∀ o : Order, o ∈ (listOrders st uid).2 ↔ o ∈ st.orders ∧ o.userId = uid) ∧
    ((∀ o ∈ st.orders, ¬(o.id = oid ∧ o.userId = uid)) →
      getOrder st uid oid = (⟨404, false, "Order not found"⟩, none)) := by
  constructor
  · intro o
    simp [listOrders, List.mem_filter]
  · intro h
    unfold getOrder
    have hn : st.orders.find? (fun o => o.id == oid && o.userId == uid) = none := by
      rw [List.find?_eq_none]
      intro o ho hb
      simp only [Bool.and_eq_true, beq_iff_eq] at hb
      exact h o ho hb
    rw [hn]

/-- C6 witness: user 1 cannot see the order of user 2: the order list of
user 1 excludes it and fetching it by id returns 404. -/
theorem C6_order_ownership_witness :
    (ordEx ∈ (listOrders stExO 1).2 ↔ ordEx ∈ stExO.orders ∧ ordEx.userId = 1) ∧
    getOrder stExO 1 1 = (⟨404, false, "Order not found"⟩, none) :=
  ⟨(C6_order_ownership stExO 1 1).1 ordEx,
   (C6_order_ownership stExO 1 1).2 (by decide)⟩

/-- C7: updateCartItem answers 404 when no cart line has the given product id;
with a matching line, quantity 0 removes every line for that product, and any
other quantity overwrites the quantity of the (first) matching line with the
given value, with no condition on the product stock. -/
theorem C7_updateCartItem_spec (st : Store) (uid pid q : Int) (u : User)
    (h : findUser st uid = some u) :
    ((u.cart.any (fun it => it.productId == pid)) = false →
      updateCartItem st uid pid q = (st, ⟨404, false, "Item not in cart"⟩)) ∧
    ((u.cart.any (fun it => it.productId == pid)) = true → q = 0 →
      (updateCartItem st uid pid q).2 = ⟨200, true, "Item removed from cart"⟩ ∧
      findUser (updateCartItem st uid pid q).1 uid =
        some (setCart u (u.cart.filter (fun it => !(it.productId == pid)))) ∧
      ∀ it ∈ u.cart.filter (fun it => !(it.productId == pid)),
        it.productId ≠ pid) ∧
    ((u.cart.any (fun it => it.productId == pid)) = true → q ≠ 0 →
      (updateCartItem st uid pid q).2 = ⟨200, true, "Cart updated"⟩ ∧
      findUser (updateCartItem st uid pid q).1 uid =
        some (setCart u (updateFirst (fun it => it.productId == pid)
          (fun it => ⟨it.productId, it.name, it.price, q⟩) u.cart)) ∧
      ∃ it0, u.cart.find? (fun it => it.productId == pid) = some it0 ∧
        (updateFirst (fun it => it.productId == pid)
            (fun it => ⟨it.productId, it.name, it.price, q⟩) u.cart).find?
              (fun it => it.productId == pid) =
          some ⟨it0.productId, it0.name, it0.price, q⟩) := by
  have hfind : st.users.find? (fun w => w.id == uid) = some u := h
  have hpu : (fun w : User => w.id == uid) u = true :=
    @List.find?_some User (fun w => w.id == uid) u st.users hfind
  refine ⟨?_, ?_, ?_⟩
  · intro hnone
    simp only [updateCartItem, h, hnone]
    rfl
  · intro hsome hq
    subst hq
    simp only [updateCartItem, h, hsome, if_pos rfl]
    refine ⟨rfl, ?_, ?_⟩
    · unfold findUser updUserCart
      exact find?_updateFirst (fun w => w.id == uid)
        (fun w => setCart w (w.cart.filter (fun it => !(it.productId == pid))))
        st.users u hfind hpu
    · intro it hit
      have := (List.mem_filter.mp hit).2
      simp only [Bool.not_eq_true'] at this
      exact fun he => by simp [he] at this
  · intro hsome hq
    simp only [updateCartItem, h, hsome, if_neg hq]
    refine ⟨rfl, ?_, ?_⟩
    · unfold findUser updUserCart
      exact find?_updateFirst (fun w => w.id == uid)
        (fun w => setCart w (updateFirst (fun it => it.productId == pid)
          (fun it => ⟨it.productId, it.name, it.price, q⟩) w.cart))
        st.users u hfind hpu
    · cases hf : u.cart.find? (fun it => it.productId == pid) with
      | none =>
        rw [List.find?_eq_none] at hf
        obtain ⟨it0, hit0, hpit0⟩ := List.any_eq_true.mp hsome
        exact absurd hpit0 (hf it0 hit0)
      | some a =>
        refine ⟨a, rfl, ?_⟩
        have hpa : (fun it : CartItem => it.productId == pid) a = true :=
          @List.find?_some CartItem (fun it => it.productId == pid) a u.cart hf
        exact find?_updateFirst (fun it => it.productId == pid)
          (fun it => ⟨it.productId, it.name, it.price, q⟩) u.cart a hf hpa

/-- C7 witness: in the sample store user 2 has one cart line for product 1;
updating product 9 gives 404, updating product 1 to quantity 7 overwrites the
line quantity, and updating to 0 removes the line. -/
theorem C7_updateCartItem_spec_witness :
    updateCartItem stEx 2 9 3 = (stEx, ⟨404, false, "Item not in cart"⟩) ∧
    (updateCartItem stEx 2 1 7).2 = ⟨200, true, "Cart updated"⟩ ∧
    (updateCartItem stEx 2 1 0).2 = ⟨200, true, "Item removed from cart"⟩ :=
  ⟨(C7_updateCartItem_spec stEx 2 9 3 userEx2 (by decide)).1 (by decide),
   ((C7_updateCartItem_spec stEx 2 1 7 userEx2 (by decide)).2.2 (by decide)
     (by decide)).1,
   ((C7_updateCartItem_spec stEx 2 1 0 userEx2 (by decide)).2.1 (by decide)
     rfl).1⟩

/-- C2: after any sequence of requests, getCart reports exactly the current
cart lines of the user together with the sum over those lines of price times
quantity, rendered as a 2-decimal string. -/
theorem C2_getCart_total (hash : String → String) (st : Store) (ops : List Op)
    (uid : Int) (u : User)
    (h : findUser (runOps hash st ops) uid = some u) :
    (getCart (runOps hash st ops) uid).2 =
      some ⟨u.cart.length,
        ratToFixed2 ((u.cart.map (fun it => it.price * (it.quantity : ℚ))).sum),
        u.cart⟩ ∧
    (getCart (runOps hash st ops) uid).1 = ⟨200, true, ""⟩ := by
  simp only [getCart, h]
  rw [← cartSum_eq_sum]
  exact ⟨rfl, trivial⟩

/-- C2 witness: adding 2 and then 3 laptops merges to one line of quantity 5
and getCart reports that line with the 2-decimal rendering of its price sum. -/
theorem C2_getCart_total_witness :
    (getCart (runOps hashEx stEx [Op.addToCart 1 (some 1) (some 2),
        Op.addToCart 1 (some 1) (some 3)]) 1).2 =
      some ⟨1, ratToFixed2 ((([⟨1, "Laptop", 999, 5⟩] : List CartItem).map
          (fun it => it.price * (it.quantity : ℚ))).sum),
        [⟨1, "Laptop", 999, 5⟩]⟩ :=
  (C2_getCart_total hashEx stEx [Op.addToCart 1 (some 1) (some 2),
      Op.addToCart 1 (some 1) (some 3)] 1
      ⟨1, "al", "a@x.com", "hpw123456", [⟨1, "Laptop", 999, 5⟩]⟩
      (by decide)).1

/-- C9: error responses are atomic: whenever a request answers with
success false, the three tables (users with their carts, products, orders)
are exactly what they were before the request. -/
theorem C9_error_atomicity (hash : String → String) (st : Store) (op : Op)
    (h : (step hash st op).2.success = false) :
    (step hash st op).1 = st := by
  rcases step_atomic hash st op with ht | hs
  · rw [ht] at h
    simp at h
  · exact hs

/-- C9 witness: checkout with an empty cart fails (success false) and leaves
the sample store unchanged. -/
theorem C9_error_atomicity_witness :
    (step hashEx stEx (Op.createOrder 1)).2.success = false ∧
    (step hashEx stEx (Op.createOrder 1)).1 = stEx :=
  ⟨by decide, C9_error_atomicity hashEx stEx (Op.createOrder 1) (by decide)⟩

/-- C10: a cart endpoint modifies at most the cart of the requesting user:
the products and orders tables are unchanged, and the users table changes at
most by replacing the cart field of the first user carrying the
authenticated id (all other users, and all other fields of that user, are
untouched; in particular addToCart does not change any stock). -/
theorem C10_cart_frame (hash : String → String) (st : Store) (op : Op)
    (uid : Int) (h : cartOpUid op = some uid) :
    (step hash st op).1.products = st.products ∧
    (step hash st op).1.orders = st.orders ∧
    ∃ f : List CartItem → List CartItem,
      (step hash st op).1.users =
        updateFirst (fun u => u.id == uid) (fun u => setCart u (f u.cart))
          st.users := by
  cases op with
  | getCart uid' =>
    injection h with h'
    subst h'
    exact ⟨rfl, rfl, fun c => c, (users_updateFirst_id uid' st.users).symm⟩
  | addToCart uid' pid q =>
    injection h with h'
    subst h'
    simp only [step, addToCart]
    (repeat' split) <;>
      first
        | exact ⟨rfl, rfl, fun c => c, (users_updateFirst_id uid' st.users).symm⟩
        | exact ⟨rfl, rfl, updUserCart_users_shape st uid' _⟩
  | updateCartItem uid' pid q =>
    injection h with h'
    subst h'
    simp only [step, updateCartItem]
    (repeat' split) <;>
      first
        | exact ⟨rfl, rfl, fun c => c, (users_updateFirst_id uid' st.users).symm⟩
        | exact ⟨rfl, rfl, updUserCart_users_shape st uid' _⟩
  | removeCartItem uid' pid =>
    injection h with h'
    subst h'
    simp only [step, removeCartItem]
    (repeat' split) <;>
      first
        | exact ⟨rfl, rfl, fun c => c, (users_updateFirst_id uid' st.users).symm⟩
        | exact ⟨rfl, rfl, updUserCart_users_shape st uid' _⟩
  | clearCart uid' =>
    injection h with h'
    subst h'
    simp only [step, clearCart]
    (repeat' split) <;>
      first
        | exact ⟨rfl, rfl, fun c => c, (users_updateFirst_id uid' st.users).symm⟩
        | exact ⟨rfl, rfl, updUserCart_users_shape st uid' _⟩
  | register u e p => simp [cartOpUid] at h
  | login e p => simp [cartOpUid] at h
  | listProducts => simp [cartOpUid] at h
  | getProduct pid => simp [cartOpUid] at h
  | searchProducts q => simp [cartOpUid] at h
  | createOrder uid' => simp [cartOpUid] at h
  | listOrders uid' => simp [cartOpUid] at h
  | getOrder uid' oid => simp [cartOpUid] at h

/-- C10 witness: an addToCart request by user 1 leaves the products table
(including every stock) and the orders table of the sample store unchanged. -/
theorem C10_cart_frame_witness :
    (step hashEx stEx (Op.addToCart 1 (some 1) (some 2))).1.products =
      stEx.products ∧
    (step hashEx stEx (Op.addToCart 1 (some 1) (some 2))).1.orders =
      stEx.orders :=
  ⟨(C10_cart_frame hashEx stEx (Op.addToCart 1 (some 1) (some 2)) 1 rfl).1,
   (C10_cart_frame hashEx stEx (Op.addToCart 1 (some 1) (some 2)) 1 rfl).2.1⟩

/-- C8: the items of an order are the checkout-time cart, copied by value
(observationally a deep copy: the cart is reset to a fresh empty array at
checkout, so later cart operations never reach the order items), the status
is set to "pending", and the orders table is append-only under every request
sequence, so an existing order (items, total, status) never changes. -/
theorem C8_order_immutable (hash : String → String) (st : Store)
    (ops : List Op) (uid : Int) (u : User)
    (h : findUser st uid = some u) (hc : u.cart ≠ []) :
    (∃ tail, (runOps hash st ops).orders = st.orders ++ tail) ∧
    ∃ o, (createOrder st uid).2.2 = some o ∧ o.items = u.cart ∧
      o.status = "pending" ∧
      (createOrder st uid).1.orders = st.orders ++ [o] := by
  refine ⟨runOps_orders_append hash ops st, ?_⟩
  have hf : u.cart.isEmpty = false := List.isEmpty_eq_false.mpr hc
  simp only [createOrder, h, hf]
  exact ⟨_, rfl, rfl, rfl, rfl⟩

/-- C8 witness: checking out the non-empty cart of user 2 appends one order
whose items are that cart and whose status is "pending"; a later request by
another user leaves the orders list a prefix extension. -/
theorem C8_order_immutable_witness :
    (∃ tail, (runOps hashEx stEx [Op.clearCart 1]).orders =
      stEx.orders ++ tail) ∧
    ∃ o, (createOrder stEx 2).2.2 = some o ∧ o.items = userEx2.cart ∧
      o.status = "pending" ∧
      (createOrder stEx 2).1.orders = stEx.orders ++ [o] :=
  C8_order_immutable hashEx stEx [Op.clearCart 1] 2 userEx2 (by decide)
    (by decide)

/-- C1: checkout on an empty cart fails with 400 and changes nothing; on a
non-empty cart it answers 201 and appends one order whose id is
orders.length + 1, whose total is the pre-checkout cart total rounded to two
decimals and whose items are the cart, empties the cart of the user, and
decrements the stock of every product by the quantity the cart orders for it
(plain subtraction with no floor check, so stock can become negative). -/
theorem C1_createOrder_spec (st : Store) (uid : Int) (u : User)
    (h : findUser st uid = some u)
    (hids : (st.products.map Product.id).Nodup) :
    (u.cart = [] →
      createOrder st uid = (st, ⟨400, false, "Your cart is empty"⟩, none)) ∧
    (u.cart ≠ [] →
      ∃ o, (createOrder st uid).2.2 = some o ∧
        (createOrder st uid).2.1 = ⟨201, true, "Order placed successfully! 🎉"⟩ ∧
        o.id = (st.orders.length : Int) + 1 ∧
        o.total = round2 (cartSum u.cart) ∧
        o.items = u.cart ∧
        (createOrder st uid).1.orders = st.orders ++ [o] ∧
        findUser (createOrder st uid).1 uid = some (setCart u []) ∧
        (createOrder st uid).1.products =
          st.products.map (fun p => subStock p (qtyIn u.cart p.id))) := by
  constructor
  · intro hc
    simp only [createOrder, h, hc, List.isEmpty_nil, if_true]
  · intro hc
    have hf : u.cart.isEmpty = false := List.isEmpty_eq_false.mpr hc
    simp only [createOrder, h, hf, Bool.false_eq_true, if_false]
    refine ⟨_, rfl, trivial, rfl, rfl, rfl, rfl, ?_, ?_⟩
    · have hfind : st.users.find? (fun w => w.id == uid) = some u := h
      have hpu : (fun w : User => w.id == uid) u = true :=
        @List.find?_some User (fun w => w.id == uid) u st.users hfind
      exact find?_updateFirst (fun w => w.id == uid) (fun w => setCart w [])
        st.users u hfind hpu
    · exact decStockAll_eq_map u.cart st.products hids

/-- C1 witness: checking out the cart of user 2 (two laptops) creates order 1
with the rounded cart total, empties the cart and applies the stock map. -/
theorem C1_createOrder_spec_witness :
    ∃ o, (createOrder stEx 2).2.2 = some o ∧
      (createOrder stEx 2).2.1 = ⟨201, true, "Order placed successfully! 🎉"⟩ ∧
      o.id = (stEx.orders.length : Int) + 1 ∧
      o.total = round2 (cartSum userEx2.cart) ∧
      o.items = userEx2.cart ∧
      (createOrder stEx 2).1.orders = stEx.orders ++ [o] ∧
      findUser (createOrder stEx 2).1 2 = some (setCart userEx2 []) ∧
      (createOrder stEx 2).1.products =
        stEx.products.map (fun p => subStock p (qtyIn userEx2.cart p.id)) :=
  (C1_createOrder_spec stEx 2 userEx2 (by decide) (by decide)).2 (by decide)

/-- C3 counterexample: quantity 0 is at most the stock (5) of product 1, yet
addToCart rejects it with the 400 missing-fields response instead of
succeeding, because the falsiness check of the code treats 0 as absent. -/
theorem C3_addToCart_cex :
    (0 : Int) ≤ prodEx.stock ∧
    findProduct stEx.products 1 = some prodEx ∧
    findUser stEx 1 = some userEx ∧
    addToCart stEx 1 (some 1) (some 0) =
      (stEx, ⟨400, false, "Please provide productId and quantity"⟩) := by
  decide

/-- C3 (amended): addToCart fails 400 if productId or quantity is missing or
zero (the falsiness check treats a present 0 as missing); with nonzero values
it fails 404 for an unknown product, 400 when quantity exceeds the stock, and
succeeds for every nonzero quantity at most the stock, merging into the
existing cart line for that product or appending a new line snapshotting the
product name and price. -/
theorem C3_addToCart_spec (st : Store) (uid : Int)
    (productId quantity : Option Int) :
    ((isFalsyNum productId || isFalsyNum quantity) = true →
      addToCart st uid productId quantity =
        (st, ⟨400, false, "Please provide productId and quantity"⟩)) ∧
    (∀ p n u, productId = some p → quantity = some n → p ≠ 0 → n ≠ 0 →
      findUser st uid = some u →
      (findProduct st.products p = none →
        addToCart st uid productId quantity =
          (st, ⟨404, false, "Product not found"⟩)) ∧
      (∀ prod, findProduct st.products p = some prod →
        (prod.stock < n →
          addToCart st uid productId quantity =
            (st, ⟨400, false,
              "Only " ++ toString prod.stock ++ " items in stock"⟩)) ∧
        (n ≤ prod.stock →
          (addToCart st uid productId quantity).2 =
            ⟨200, true, prod.name ++ " added to cart"⟩ ∧
          findUser (addToCart st uid productId quantity).1 uid =
            some (setCart u (addLine u.cart prod p n)) ∧
          ((u.cart.any (fun it => it.productId == p)) = true →
            addLine u.cart prod p n =
              updateFirst (fun it => it.productId == p)
                (fun it => ⟨it.productId, it.name, it.price, it.quantity + n⟩)
                u.cart) ∧
          ((u.cart.any (fun it => it.productId == p)) = false →
            addLine u.cart prod p n =
              u.cart ++ [⟨p, prod.name, prod.price, n⟩])))) := by
  constructor
  · intro hf
    simp only [addToCart, hf, if_true]
  · intro p n u hp hn hp0 hn0 hu
    subst hp
    subst hn
    have hf : (isFalsyNum (some p) || isFalsyNum (some n)) = false := by
      simp [isFalsyNum, hp0, hn0]
    refine ⟨?_, ?_⟩
    · intro hprod
      simp only [addToCart, hf, Bool.false_eq_true, if_false, hu,
        Option.getD_some, hprod]
    · intro prod hprod
      constructor
      · intro hlt
        simp only [addToCart, hf, Bool.false_eq_true, if_false, hu,
          Option.getD_some, hprod]
        rw [if_pos hlt]
      · intro hle
        have hnl : ¬ prod.stock < n := not_lt.mpr hle
        simp only [addToCart, hf, Bool.false_eq_true, if_false, hu,
          Option.getD_some, hprod]
        rw [if_neg hnl]
        refine ⟨rfl, ?_, ?_, ?_⟩
        · have hfind : st.users.find? (fun w => w.id == uid) = some u := hu
          have hpu : (fun w : User => w.id == uid) u = true :=
            @List.find?_some User (fun w => w.id == uid) u st.users hfind
          exact find?_updateFirst (fun w => w.id == uid)
            (fun w => setCart w (addLine w.cart prod p n)) st.users u hfind hpu
        · intro hany
          simp only [addLine, hany, if_true]
        · intro hany
          simp only [addLine, hany, Bool.false_eq_true, if_false]

/-- C3 witness: with stock 5, adding 2 laptops and then 3 more to the cart of
user 1 merges into a single line of quantity 5, and adding 6 is rejected with
the stock message. -/
theorem C3_addToCart_spec_witness :
    findUser (addToCart stEx 1 (some 1) (some 2)).1 1 =
      some (setCart userEx (addLine userEx.cart prodEx 1 2)) ∧
    addLine userEx.cart prodEx 1 2 = [⟨1, "Laptop", 999, 2⟩] ∧
    addToCart stEx 1 (some 1) (some 6) =
      (stEx, ⟨400, false, "Only 5 items in stock"⟩) :=
  ⟨(((((C3_addToCart_spec stEx 1 (some 1) (some 2)).2 1 2 userEx rfl rfl
      (by decide) (by decide) (by decide)).2) prodEx (by decide)).2
      (by decide)).2.1,
   by decide,
   ((((C3_addToCart_spec stEx 1 (some 1) (some 6)).2 1 6 userEx rfl rfl
      (by decide) (by decide) (by decide)).2) prodEx (by decide)).1
      (by decide)⟩

/-- C4: email uniqueness of the users table is preserved by every request
sequence; register answers 400 with the store unchanged whenever a user with
the given email exists ("Email already registered" when all fields are
present), so a second registration with an already-registered email always
fails. -/
theorem C4_email_unique (hash : String → String) (st : Store) (ops : List Op)
    (uname e pw uname2 pw2 : String) :
    (emailsNodup st → emailsNodup (runOps hash st ops)) ∧
    ((∃ w ∈ st.users, w.email = e) →
      (register hash st uname e pw).2.status = 400 ∧
      (register hash st uname e pw).1 = st) ∧
    (uname ≠ "" → pw ≠ "" → e ≠ "" → (∃ w ∈ st.users, w.email = e) →
      register hash st uname e pw =
        (st, ⟨400, false, "Email already registered"⟩)) ∧
    ((register hash st uname e pw).2.status = 201 →
      (register hash (register hash st uname e pw).1 uname2 e pw2).2.status =
        400) := by
  have hsome : (∃ w ∈ st.users, w.email = e) →
      (st.users.find? (fun w => w.email == e)).isSome = true := by
    intro hex
    rw [List.find?_isSome]
    obtain ⟨w, hw, hwe⟩ := hex
    exact ⟨w, hw, by simp [hwe]⟩
  refine ⟨runOps_emailsNodup hash ops st, ?_, ?_, ?_⟩
  · intro hex
    unfold register
    split_ifs with h1 h2
    · exact ⟨rfl, rfl⟩
    · exact ⟨rfl, rfl⟩
    · exact absurd (hsome hex) h2
  · intro hu hp he hex
    unfold register
    split_ifs with h1 h2
    · exact absurd h1 (by simp [hu, hp, he])
    · rfl
    · exact absurd (hsome hex) h2
  · intro h201
    unfold register at h201 ⊢
    split_ifs at h201 with h1 h2
    · simp at h201
    · simp at h201
    · rw [if_neg h1, if_neg h2]
      split_ifs with g1 g2
      · rfl
      · rfl
      · exfalso
        apply g2
        rw [List.find?_isSome]
        exact ⟨⟨(st.users.length : Int) + 1, uname, e, hash pw, []⟩,
          by simp, by simp⟩

/-- C4 witness: registering "cy" with the fresh email "c@x.com" succeeds in
the sample store, and registering again with the same email fails with 400;
the existing email "a@x.com" is rejected with "Email already registered". -/
theorem C4_email_unique_witness :
    register hashEx stEx "cy" "a@x.com" "pw9" =
      (stEx, ⟨400, false, "Email already registered"⟩) ∧
    (register hashEx (register hashEx stEx "cy" "c@x.com" "pw9").1
      "dy" "c@x.com" "pw10").2.status = 400 :=
  ⟨(C4_email_unique hashEx stEx [] "cy" "a@x.com" "pw9" "dy" "pw10").2.2.1
      (by decide) (by decide) (by decide) ⟨userEx, by decide, by decide⟩,
   (C4_email_unique hashEx stEx [] "cy" "c@x.com" "pw9" "dy" "pw10").2.2.2
      (by decide)⟩

end ECommerce
